import Mathlib

/-!
Verification development for `rayhunter_bridge.py`, the Rayhunter → Home
Assistant bridge.  The Python source is shallowly embedded: JSON values are an
inductive type, fetch results are `Option Json` (with `none` standing for the
Python value `None`, i.e. an unavailable or malformed document), and the
poll-cycle state machine of `main` is explicit state passing over `Obs`.
Python-specific semantics (truthiness, the `or` chains, `int(...)` coercion,
`str(...)` rendering, `dict.get`) are modelled by dedicated helper functions.
Integers are unbounded in Python, so `Int` is used directly.  Timestamps are
modelled as integer seconds (`time.time()` returns a real; the properties under
study only involve whole-second schedules).
-/

namespace Rayhunter

/-- A parsed JSON document, as produced by `json.loads`.  `null` corresponds to
the Python value `None` appearing inside a container; a `None` at top level is
represented by `Option.none` at use sites.  (JSON floats do not occur in any of
the properties under study and are omitted from the model.) -/
inductive Json where
  | null : Json
  | bool : Bool → Json
  | int : Int → Json
  | str : String → Json
  | arr : List Json → Json
  | obj : List (String × Json) → Json

/-- `isinstance(x, dict)`. -/
def Json.isObj : Json → Bool
  | .obj _ => true
  | _ => false

/-- Python truthiness of a JSON value (`bool(x)`). -/
def jtruthy : Json → Bool
  | .null => false
  | .bool b => b
  | .int n => decide (n ≠ 0)
  | .str s => decide (s ≠ "")
  | .arr xs => !xs.isEmpty
  | .obj kvs => !kvs.isEmpty

/-- Truthiness of a possibly-`None` Python value. -/
def otruthy : Option Json → Bool
  | none => false
  | some j => jtruthy j

/-- Python `a or b`: returns `a` when truthy, else `b`. -/
def pyOr (a b : Option Json) : Option Json :=
  if otruthy a then a else b

/-- First-match association-list lookup (Python dicts have unique keys, so this
is the dict lookup). -/
def lookupKvs : List (String × Json) → String → Option Json
  | [], _ => none
  | (k', v) :: rest, k => if k' = k then some v else lookupKvs rest k

/-- `d.get(k)` on a Python dict: absent keys give `None`, and a stored JSON
`null` is the Python value `None` as well, so both are `none`. -/
def pyGet (j : Json) (k : String) : Option Json :=
  match j with
  | .obj kvs =>
    match lookupKvs kvs k with
    | some .null => none
    | v => v
  | _ => none

/-- `d[k]` dict indexing inside a `try` block: any raised `KeyError`/`TypeError`
is `none`; a stored `null` is kept (it only fails at the next step). -/
def getItem : Json → String → Option Json
  | .obj kvs, k => lookupKvs kvs k
  | _, _ => none

/-- A character the Python `int()` parser strips at both ends. -/
def isPyWs (c : Char) : Bool :=
  c = ' ' || c = '\t' || c = '\n' || c = '\r' || c = Char.ofNat 11 || c = Char.ofNat 12

/-- Digit groups of a Python integer literal: `digit+ ( underscore digit+ )*`,
accumulating the value (underscores are ignored). -/
def pyDigitsCore (acc : Nat) : List Char → Option Nat
  | [] => some acc
  | '_' :: c :: cs =>
    if c.isDigit then pyDigitsCore (acc * 10 + (c.toNat - 48)) cs else none
  | c :: cs =>
    if c.isDigit then pyDigitsCore (acc * 10 + (c.toNat - 48)) cs else none

/-- The digits part of `int(str)`. -/
def pyDigits : List Char → Option Nat
  | c :: cs => if c.isDigit then pyDigitsCore (c.toNat - 48) cs else none
  | [] => none

/-- Python `int(s)` for a string argument (ASCII): surrounding whitespace is
stripped, an optional sign is allowed, then digits with single underscores
between digit groups. -/
def parseIntPy (s : String) : Option Int :=
  let cs := ((s.toList.dropWhile isPyWs).reverse.dropWhile isPyWs).reverse
  match cs with
  | '+' :: rest => (pyDigits rest).map Int.ofNat
  | '-' :: rest => (pyDigits rest).map (fun n => -(n : Int))
  | rest => (pyDigits rest).map Int.ofNat

/-- Python `int(x)` on a JSON value: bools are 0/1, ints pass through, strings
are parsed; everything else raises (= `none`). -/
def pyToIntJ : Json → Option Int
  | .bool b => some (if b then 1 else 0)
  | .int n => some n
  | .str s => parseIntPy s
  | _ => none

/-- Python `int(x)` on a possibly-`None` value (`int(None)` raises). -/
def pyToInt : Option Json → Option Int
  | none => none
  | some j => pyToIntJ j

/-- ASCII lowercasing of one character (`str.lower` / `re.I` on the inputs in
scope). -/
def lowerChar (c : Char) : Char :=
  if 'A' ≤ c ∧ c ≤ 'Z' then Char.ofNat (c.toNat + 32) else c

/-- ASCII `str.lower()`. -/
def lowerStr (s : String) : String :=
  String.mk (s.toList.map lowerChar)

/-- Python `repr` of a string: single quotes preferred, double quotes when the
string contains a single quote but no double quote; backslash, the quote
character, newline, carriage return and tab are escaped. -/
def pyStrQuote (s : String) : String :=
  let hasSingle := s.toList.contains '\''
  let hasDouble := s.toList.contains '"'
  let q : Char := if hasSingle ∧ ¬hasDouble then '"' else '\''
  let esc : Char → List Char := fun c =>
    if c = '\\' then ['\\', '\\']
    else if c = q then ['\\', q]
    else if c = '\n' then ['\\', 'n']
    else if c = '\r' then ['\\', 'r']
    else if c = '\t' then ['\\', 't']
    else [c]
  String.mk (q :: (s.toList.flatMap esc) ++ [q])

mutual

/-- Python `repr` of a JSON value (what `str` does to containers). -/
def pyRepr : Json → String
  | .null => "None"
  | .bool true => "True"
  | .bool false => "False"
  | .int n => toString n
  | .str s => pyStrQuote s
  | .arr xs => "[" ++ pyReprList xs ++ "]"
  | .obj kvs => "\x7b" ++ pyReprKvs kvs ++ "\x7d"

/-- Comma-joined reprs of list elements. -/
def pyReprList : List Json → String
  | [] => ""
  | [j] => pyRepr j
  | j :: j' :: js => pyRepr j ++ ", " ++ pyReprList (j' :: js)

/-- Comma-joined `key: value` reprs of dict items. -/
def pyReprKvs : List (String × Json) → String
  | [] => ""
  | [(k, v)] => pyStrQuote k ++ ": " ++ pyRepr v
  | (k, v) :: kv' :: kvs => pyStrQuote k ++ ": " ++ pyRepr v ++ ", " ++ pyReprKvs (kv' :: kvs)

end

/-- Python `str(x)`: identity on strings, `repr` otherwise. -/
def pyStr : Json → String
  | .str s => s
  | .null => "None"
  | .bool b => pyRepr (.bool b)
  | .int n => pyRepr (.int n)
  | .arr xs => pyRepr (.arr xs)
  | .obj kvs => pyRepr (.obj kvs)

/-- `get_stats` (lines 68-81): `(warning_count, last_report_id)` from the
`/api/system-stats` document.  The `or` chains are Python truthiness chains. -/
def get_stats (js : Option Json) : Option Int × Option String :=
  match js with
  | some (Json.obj kvs) =>
    let j := Json.obj kvs
    let warn := pyOr (pyGet j "warningCount") (pyOr (pyGet j "warnings") (pyGet j "warning_count"))
    let lrid := pyOr (pyGet j "lastReportId") (pyOr (pyGet j "last_report_id") (pyGet j "last_id"))
    (pyToInt warn, lrid.map pyStr)
  | _ => (none, none)

/-- The identity key preference list of `parse_newest_entry._id` (line 87). -/
def idKeys : List String := ["id", "report_id", "reportId", "uid"]

/-- One step of `_id` (lines 86-95): first key whose `d.get` value is not a
bool and coerces with `int(...)`. -/
def firstIdGo : List String → Json → Option Int
  | [], _ => none
  | k :: ks, d =>
    match pyGet d k with
    | some (.bool _) => firstIdGo ks d
    | v =>
      match pyToInt v with
      | some n => some n
      | none => firstIdGo ks d

/-- `_id(d)` (lines 86-95). -/
def entryId (d : Json) : Option Int := firstIdGo idKeys d

/-- The sort key used for `max(with_ids, key=_id)`; on `with_ids` members
`entryId` is always `some`, so the default is never observed. -/
def idKey (d : Json) : Int := (entryId d).getD 0

/-- `with_ids` (line 96): the manifest entries that are dicts with a parseable
identity. -/
def withIds (xs : List Json) : List Json :=
  xs.filter (fun d => d.isObj && (entryId d).isSome)

/-- Python `max(first :: rest, key=idKey)`: iterate, replacing the current
maximum only on a strictly greater key, so the first maximum wins. -/
def pickMax : Json → List Json → Json
  | best, [] => best
  | best, d :: rest => pickMax (if idKey best < idKey d then d else best) rest

/-- The raw-id scan of lines 100-106: first identity key whose `get` is not
`None`, rendered with `str(...)`. -/
def firstRidGo : List String → Json → Option String
  | [], _ => none
  | k :: ks, d =>
    match pyGet d k with
    | some v => some (pyStr v)
    | none => firstRidGo ks d

/-- `parse_newest_entry` (lines 83-107): newest manifest entry and its id. -/
def parse_newest_entry (manifest : Option Json) : Option Json × Option String :=
  match manifest with
  | some (Json.arr xs) =>
    match xs with
    | [] => (none, none)
    | x :: rest =>
      match withIds (x :: rest) with
      | d :: ds =>
        let newest := pickMax d ds
        (some newest, some (toString (idKey newest)))
      | [] =>
        match (x :: rest).getLast? with
        | some (Json.obj kvs) =>
          -- `if newest:` guards the rid scan: an empty dict is falsy.
          (some (Json.obj kvs),
            if kvs.isEmpty then none else firstRidGo idKeys (Json.obj kvs))
        | _ => (none, none)
  | _ => (none, none)

/-- The warning-count key list of `count_warnings_from_manifest_entry`
(line 112). -/
def cwKeys : List String := ["warnings", "warning_count", "num_warnings", "warningTotal"]

/-- The key loop of lines 112-117: first key whose `get` value coerces with
`int(...)`, clamped with `max(0, ...)`. -/
def firstCwGo : List String → Json → Option Int
  | [], _ => none
  | k :: ks, d =>
    match pyToInt (pyGet d k) with
    | some n => some (max 0 n)
    | none => firstCwGo ks d

/-- `count_warnings_from_manifest_entry` (lines 109-118). -/
def count_warnings_from_manifest_entry (entry : Option Json) : Option Int :=
  match entry with
  | some (Json.obj kvs) => firstCwGo cwKeys (Json.obj kvs)
  | _ => none

/-- The dotted-path key list of `count_warnings_from_report` (line 124). -/
def pathKeys : List String :=
  ["warnings", "warning_count", "num_warnings", "warningTotal",
   "analysis.warnings", "summary.warnings"]

/-- `cur = cur[p]` over the segments of a dotted key; any raised indexing
error is `none`. -/
def traverse : Json → List String → Option Json
  | cur, [] => some cur
  | cur, p :: ps =>
    match getItem cur p with
    | some v => traverse v ps
    | none => none

/-- Accumulator pass of `k.split(".")`. -/
def splitDotGo : List Char → List Char → List String
  | acc, [] => [String.mk acc.reverse]
  | acc, c :: cs =>
    if c = '.' then String.mk acc.reverse :: splitDotGo [] cs
    else splitDotGo (c :: acc) cs

/-- Python `k.split(".")` (the dotted keys in scope contain no edge cases). -/
def splitDot (s : String) : List String := splitDotGo [] s.toList

/-- The dotted-path loop of lines 124-131: first path that resolves and
coerces with `int(...)`, clamped with `max(0, ...)`. -/
def firstPathGo : List String → Json → Option Int
  | [], _ => none
  | k :: ks, r =>
    match (traverse r (splitDot k)).bind pyToIntJ with
    | some n => some (max 0 n)
    | none => firstPathGo ks r

/-- The numeric-field stage of `count_warnings_from_report`: the dotted-path
loop runs only when the report is a dict (line 123). -/
def numericField (r : Json) : Option Int :=
  match r with
  | Json.obj _ => firstPathGo pathKeys r
  | _ => none

/-- The severity-ish key set of line 140. -/
def sevKeys : List String := ["severity", "level", "type", "class"]

/-- `p` occurs as a prefix of `cs`. -/
def listStartsWith : List Char → List Char → Bool
  | [], _ => true
  | _ :: _, [] => false
  | p :: ps, c :: cs => (p = c) && listStartsWith ps cs

/-- `pat` occurs as a substring (`re.search` of a literal pattern). -/
def hasSub (pat : List Char) : List Char → Bool
  | [] => pat.isEmpty
  | c :: cs => listStartsWith pat (c :: cs) || hasSub pat cs

/-- `re.search(r"(warn|critical)", sev, re.I)` (line 142). -/
def hasWarnCrit (s : String) : Bool :=
  hasSub "warn".toList (lowerStr s).toList || hasSub "critical".toList (lowerStr s).toList

/-- The `sev` scan of the item loop (lines 136-141): the LAST string value
whose lowercased key is a severity-ish key (later matches overwrite). -/
def lastSev (kvs : List (String × Json)) : Option String :=
  kvs.foldl
    (fun acc kv =>
      match kv.2 with
      | Json.str s => if sevKeys.contains (lowerStr kv.1) then some s else acc
      | _ => acc)
    none

/-- Contribution of the chosen `sev` (lines 142-143): counted when truthy
(non-empty) and matching warn/critical. -/
def sevHit (kvs : List (String × Json)) : Nat :=
  match lastSev kvs with
  | some s => if s ≠ "" ∧ hasWarnCrit s then 1 else 0
  | none => 0

mutual

/-- `walk` (lines 133-147): recursive count of severity-ish fields matching
warn/critical.  Only dict/list values recurse; scalars are skipped. -/
def walk : Json → Nat
  | .obj kvs => walkKvs kvs + sevHit kvs
  | .arr xs => walkList xs
  | _ => 0

/-- The list branch of `walk` (lines 144-146). -/
def walkList : List Json → Nat
  | [] => 0
  | j :: js => walk j + walkList js

/-- The dict-items branch of `walk` (lines 136-139): dict/list values recurse. -/
def walkKvs : List (String × Json) → Nat
  | [] => 0
  | (_, v) :: rest =>
    (match v with
     | .obj kvs => walk (.obj kvs)
     | .arr xs => walk (.arr xs)
     | _ => 0) + walkKvs rest

end

/-- `isWordChar`: the `\w` class of the regexes in scope (ASCII inputs). -/
def isWordChar (c : Char) : Bool := c.isAlphanum || c = '_'

/-- The lowercased characters of the literal token `warning`. -/
def warningChars : List Char := ['w', 'a', 'r', 'n', 'i', 'n', 'g']

/-- The next 7 characters, lowercased, spell `warning`. -/
def startsWarning (cs : List Char) : Bool :=
  (cs.take 7).map lowerChar == warningChars

/-- The character after the candidate match (if any) is not a word character
(the closing word boundary). -/
def afterOk (cs : List Char) : Bool :=
  match cs.drop 7 with
  | [] => true
  | c :: _ => !isWordChar c

/-- Positional scan for case-insensitive whole-word occurrences of `warning`;
the flag records whether the previous character opens a word boundary.
Matches of this pattern can never overlap, so the positional count equals the
`re.findall` count. -/
def countWW (prevOk : Bool) : List Char → Nat
  | [] => 0
  | c :: rest =>
    (if prevOk && startsWarning (c :: rest) && afterOk (c :: rest) then 1 else 0)
      + countWW (!isWordChar c) rest

/-- `len(re.findall(r"\bwarning\b", s, re.I))` (line 150). -/
def wordCountWarning (s : String) : Nat := countWW true s.toList

/-- `count_warnings_from_report` (lines 120-150). -/
def count_warnings_from_report (report : Option Json) : Int :=
  match report with
  | none => 0
  | some r =>
    match numericField r with
    | some v => v
    | none =>
      let c := walk r
      if c ≠ 0 then (c : Int) else (wordCountWarning (pyStr r) : Int)

/-- The configuration the reconciliation core reads (lines 28-30): the
"alert on new report id" toggle and the two synthetic-alert intervals
(0 = disabled). -/
structure Cfg where
  alert_on_new : Bool
  force_secs : Int
  autoclear_secs : Int
deriving DecidableEq

/-- The ObservedState of the driver loop (lines 271-276): the mutable locals
of `main` other than `last_line`.  `next_forced` and `clear_deadline` are
timestamps with 0 meaning inactive. -/
structure Obs where
  last_warn : Int
  last_id : Option String
  last_alert : Bool
  next_forced : Int
  clear_deadline : Int
deriving DecidableEq

/-- One `mqtt_publish(alert, rid, warn)` call's arguments: the notify event
handed to the Notifier. -/
structure NotifyEvent where
  alert : Option Bool
  rid : Option String
  warn : Option Int
deriving DecidableEq

/-- The results of the (up to three) HTTP fetches of one poll cycle, as the
values `json_get` hands the core: `none` is an unavailable or malformed
document. -/
structure Fetches where
  stats : Option Json
  manifest : Option Json
  report : String → Option Json

/-- `mqtt_publish` (lines 226-234) as the list of `(topic, payload)` pairs it
publishes, in order.  `client` is whether a pub/sub client is connected
(line 227); `base` is `base_topic`. -/
def mqtt_publish (client : Bool) (base : String) (state : Option Bool)
    (last_id : Option String) (warn_count : Option Int) : List (String × String) :=
  if client then
    (match state with
     | some b => [(base ++ "/alert/state", if b then "ON" else "OFF")]
     | none => []) ++
    (match last_id with
     | some s => [(base ++ "/last_report_id/state", s)]
     | none => []) ++
    (match warn_count with
     | some n => [(base ++ "/last_warning_count/state", toString (max 0 n))]
     | none => [])
  else []

/-- The fallback-tier warning value `w` of lines 287-289: the manifest-entry
count, else — when the resolved rid is truthy (`if w is None and rid:`, so an
empty-string rid is falsy) — the full-report count. -/
def tier23Warn (f : Fetches) (rid : Option String) : Option Int :=
  let w := count_warnings_from_manifest_entry (parse_newest_entry f.manifest).1
  match w, rid with
  | none, some r =>
    if r ≠ "" then some (count_warnings_from_report (f.report r)) else none
  | w, _ => w

/-- The extraction part of one poll cycle (lines 280-290): tier 1 stats, then
manifest/report fallback; `warn` holds the Python variable of the same name,
which after line 290 (`warn = warn if warn is not None else (w or 0)`) is
always a concrete integer. -/
def extract (f : Fetches) : Option Int × Option String :=
  let wr := get_stats f.stats
  let warn := wr.1
  let rid := wr.2
  if warn.isNone || rid.isNone then
    let rid := if rid.isNone then (parse_newest_entry f.manifest).2 else rid
    (match warn with
     | some n => some n
     | none => some ((tier23Warn f rid).getD 0), rid)
  else (warn, rid)

/-- The meaningful-change gate (lines 292-298): alert derivation (including
the alert-on-new forcing) and the conditional publish-and-update. -/
def gateStep (cfg : Cfg) (warn : Option Int) (rid : Option String) (s : Obs) :
    List NotifyEvent × Obs :=
  let alert0 := decide ((warn.getD 0) > 0)
  let alert :=
    if cfg.alert_on_new ∧ rid.isSome ∧ rid ≠ s.last_id then true else alert0
  if rid ≠ s.last_id ∨ warn ≠ some s.last_warn ∨ alert ≠ s.last_alert then
    ([⟨some alert, rid, warn⟩],
      { s with last_id := rid, last_warn := warn.getD 0, last_alert := alert })
  else ([], s)

/-- The forced-alert step (lines 300-306). -/
def forcedStep (cfg : Cfg) (now : Int) (s : Obs) : List NotifyEvent × Obs :=
  if cfg.force_secs > 0 ∧ now ≥ s.next_forced then
    ([⟨some true, s.last_id, some s.last_warn⟩],
      { s with last_alert := true,
               next_forced := now + cfg.force_secs,
               clear_deadline :=
                 if cfg.autoclear_secs > 0 then now + cfg.autoclear_secs
                 else s.clear_deadline })
  else ([], s)

/-- The manual-trigger drain (lines 308-317), with `n` pending unit events;
each emits an alert and (re)arms the auto-clear deadline. -/
def manualStep (cfg : Cfg) (now : Int) : Nat → Obs → List NotifyEvent × Obs
  | 0, s => ([], s)
  | n + 1, s =>
    let e : NotifyEvent := ⟨some true, s.last_id, some s.last_warn⟩
    let s' :=
      { s with last_alert := true,
               clear_deadline :=
                 if cfg.autoclear_secs > 0 then now + cfg.autoclear_secs
                 else s.clear_deadline }
    let r := manualStep cfg now n s'
    (e :: r.1, r.2)

/-- The auto-clear step (lines 319-322): fires when the deadline is armed
(non-zero, Python float truthiness) and reached. -/
def clearStep (now : Int) (s : Obs) : List NotifyEvent × Obs :=
  if s.clear_deadline ≠ 0 ∧ now ≥ s.clear_deadline then
    ([⟨some false, s.last_id, some s.last_warn⟩],
      { s with last_alert := false, clear_deadline := 0 })
  else ([], s)

/-- The forced/manual/auto-clear portion of a cycle (lines 300-322), in source
order. -/
def timerSteps (cfg : Cfg) (now : Int) (n : Nat) (s : Obs) : List NotifyEvent × Obs :=
  let r1 := forcedStep cfg now s
  let r2 := manualStep cfg now n r1.2
  let r3 := clearStep now r2.2
  (r1.1 ++ r2.1 ++ r3.1, r3.2)

/-- One `reconcile` (lines 292-322): change gate, then timer steps, emitting
events in order. -/
def reconcile (cfg : Cfg) (warn : Option Int) (rid : Option String) (now : Int)
    (n : Nat) (s : Obs) : List NotifyEvent × Obs :=
  let r0 := gateStep cfg warn rid s
  let rt := timerSteps cfg now n r0.2
  (r0.1 ++ rt.1, rt.2)

/-- The status line of line 324, built from the post-cycle state and the
`warn` variable.  An unset id prints as the Python rendering `None`. -/
def statusLine (warn : Option Int) (s : Obs) : String :=
  "hb=" ++ (if warn.isSome then "ok" else "down")
    ++ " last_id=" ++ (match s.last_id with | some r => r | none => "None")
    ++ " warnings=" ++ toString s.last_warn
    ++ " alert=" ++ (if s.last_alert then "ON" else "OFF")

/-- Change-gated printing (lines 325-327): the line is printed only when it
differs from the previous cycle's. -/
def printedLine (line lastLine : String) : Option String :=
  if line ≠ lastLine then some line else none

/-- One full poll-cycle body (lines 280-327): extraction, reconciliation and
the status line, at a single instant `now` with `n` pending manual triggers. -/
def cycle (cfg : Cfg) (f : Fetches) (now : Int) (n : Nat) (s : Obs) :
    List NotifyEvent × Obs × String :=
  let wr := extract f
  let r := reconcile cfg wr.1 wr.2 now n s
  (r.1, r.2, statusLine wr.1 r.2)

/-- The initial ObservedState (lines 271-276) for a process started at `t0`. -/
def initObs (cfg : Cfg) (t0 : Int) : Obs :=
  ⟨0, none, false, if cfg.force_secs > 0 then t0 + cfg.force_secs else 0, 0⟩

/-- A run of the driver loop over a list of cycle instants with a fixed fetch
outcome and no manual triggers, collecting each cycle's emitted events. -/
def runLoop (cfg : Cfg) (f : Fetches) : List Int → Obs → List (Int × List NotifyEvent)
  | [], _ => []
  | t :: ts, s =>
    let r := cycle cfg f t 0 s
    (t, r.1) :: runLoop cfg f ts r.2.1

/-- The all-fetches-unavailable (fully degraded) cycle input. -/
def fDown : Fetches := ⟨none, none, fun _ => none⟩

/-- A stats document whose earlier-priority fields carry falsy values (0 and
the empty string) while later-priority fields carry truthy ones. -/
def statsDoc1 : Json :=
  Json.obj [("warningCount", .int 0), ("warnings", .int 5),
            ("lastReportId", .str ""), ("last_id", .int 7)]

/-- C1 counterexample: on a stats object with `warningCount=0` and
`lastReportId=""`, the `or` chains skip the falsy earlier fields, so tier-1
resolves `warnings=5` and `last_id=7`, not the first-present values 0 and "". -/
theorem c1_counterexample :
    get_stats (some statsDoc1) = (some 5, some "7") ∧
    get_stats (some statsDoc1) ≠ (some 0, some "") := by
  constructor
  · decide
  · decide

/-- C1 amended: for every stats object, tier-1 resolves the warning count from
the first TRUTHY field among `warningCount|warnings|warning_count` (a present
but falsy value — 0, empty string, null — is skipped), falling through to the
coercion of the last field otherwise; and likewise the report id from the
first truthy field among `lastReportId|last_report_id|last_id`. -/
theorem c1_first_truthy_wins (kvs : List (String × Json)) :
    (otruthy (pyGet (Json.obj kvs) "warningCount") = true →
      (get_stats (some (Json.obj kvs))).1 = pyToInt (pyGet (Json.obj kvs) "warningCount")) ∧
    (otruthy (pyGet (Json.obj kvs) "warningCount") = false →
      otruthy (pyGet (Json.obj kvs) "warnings") = true →
      (get_stats (some (Json.obj kvs))).1 = pyToInt (pyGet (Json.obj kvs) "warnings")) ∧
    (otruthy (pyGet (Json.obj kvs) "warningCount") = false →
      otruthy (pyGet (Json.obj kvs) "warnings") = false →
      (get_stats (some (Json.obj kvs))).1 = pyToInt (pyGet (Json.obj kvs) "warning_count")) ∧
    (otruthy (pyGet (Json.obj kvs) "lastReportId") = true →
      (get_stats (some (Json.obj kvs))).2 = (pyGet (Json.obj kvs) "lastReportId").map pyStr) ∧
    (otruthy (pyGet (Json.obj kvs) "lastReportId") = false →
      otruthy (pyGet (Json.obj kvs) "last_report_id") = true →
      (get_stats (some (Json.obj kvs))).2 = (pyGet (Json.obj kvs) "last_report_id").map pyStr) ∧
    (otruthy (pyGet (Json.obj kvs) "lastReportId") = false →
      otruthy (pyGet (Json.obj kvs) "last_report_id") = false →
      (get_stats (some (Json.obj kvs))).2 = (pyGet (Json.obj kvs) "last_id").map pyStr) := by
  refine ⟨fun h1 => ?_, fun h1 h2 => ?_, fun h1 h2 => ?_,
    fun h1 => ?_, fun h1 h2 => ?_, fun h1 h2 => ?_⟩ <;>
    simp [get_stats, pyOr, h1, *]

/-- C1 amended, witness: on `statsDoc1` the second-priority field `warnings`
is the first truthy one and its coercion is the tier-1 warning count. -/
theorem c1_first_truthy_wins_witness :
    (get_stats (some statsDoc1)).1 = pyToInt (pyGet statsDoc1 "warnings") :=
  (c1_first_truthy_wins
    [("warningCount", .int 0), ("warnings", .int 5),
     ("lastReportId", .str ""), ("last_id", .int 7)]).2.1 (by decide) (by decide)

/-- C7: whenever no dotted-path numeric warning field of a report resolves and
the severity scan finds nothing, the extracted count is exactly the number of
case-insensitive whole-word occurrences of `warning` in the document's textual
serialization — in particular 3 when there are three. -/
theorem c7_text_fallback (r : Json)
    (h1 : numericField r = none) (h2 : walk r = 0)
    (h3 : wordCountWarning (pyStr r) = 3) :
    count_warnings_from_report (some r) = 3 := by
  simp [count_warnings_from_report, h1, h2, h3]

/-- A report document with no recognized numeric field, no severity-style
matches, and the word `Warning` three times. -/
def reportDoc7 : Json := Json.obj [("msg", Json.str "Warning warning WARNING")]

/-- C7 witness: the concrete three-`Warning` report extracts count 3. -/
theorem c7_text_fallback_witness :
    count_warnings_from_report (some reportDoc7) = 3 :=
  c7_text_fallback reportDoc7 (by decide) (by decide) (by decide)

/-- Python `max` keeps the first element and replaces it only on a strictly
greater key, so the result is a member of the scanned list. -/
lemma pickMax_mem (rest : List Json) : ∀ d, pickMax d rest ∈ d :: rest := by
  induction rest with
  | nil => intro d; simp [pickMax]
  | cons x xs ih =>
    intro d
    show pickMax (if idKey d < idKey x then x else d) xs ∈ d :: x :: xs
    by_cases h : idKey d < idKey x
    · rw [if_pos h]
      rcases List.mem_cons.mp (ih x) with h' | h'
      · simp [h']
      · simp [List.mem_cons, Or.inr (Or.inr h')]
    · rw [if_neg h]
      rcases List.mem_cons.mp (ih d) with h' | h'
      · simp [h']
      · simp [List.mem_cons, Or.inr (Or.inr h')]

/-- The scanned maximum dominates the keys of every scanned element. -/
lemma pickMax_le (rest : List Json) :
    ∀ d, ∀ e ∈ d :: rest, idKey e ≤ idKey (pickMax d rest) := by
  induction rest with
  | nil =>
    intro d e he
    rcases List.mem_cons.mp he with rfl | he'
    · simp [pickMax]
    · simp at he'
  | cons x xs ih =>
    intro d e he
    show idKey e ≤ idKey (pickMax (if idKey d < idKey x then x else d) xs)
    by_cases h : idKey d < idKey x
    · rw [if_pos h]
      rcases List.mem_cons.mp he with heq | he'
      · subst heq
        exact le_trans (le_of_lt h) (ih x x (List.mem_cons_self x xs))
      · exact ih x e he'
    · rw [if_neg h]
      rcases List.mem_cons.mp he with heq | he'
      · subst heq
        exact ih _ _ (List.mem_cons_self _ xs)
      · rcases List.mem_cons.mp he' with heq | he''
        · subst heq
          exact le_trans (not_lt.mp h) (ih d d (List.mem_cons_self d xs))
        · exact ih d e (List.mem_cons_of_mem d he'')

/-- A manifest value that is not a (non-empty) list: fetch failure, a scalar,
an object, or the empty list. -/
def manifestDegenerate : Option Json → Bool
  | some (Json.arr (_ :: _)) => false
  | _ => true

/-- C10: newest-entry selection never raises: every degenerate manifest gives
`(no entry, no id)`; on a list with at least one parseable non-boolean integer
identity the selected entry is one of those and carries the maximum identity
(which is also the returned id string); with no parseable identity the result
entry is the last element when it is an object, and nothing otherwise. -/
theorem c10_newest_selection :
    (∀ m : Option Json, manifestDegenerate m = true → parse_newest_entry m = (none, none)) ∧
    (∀ xs d ds, withIds xs = d :: ds →
      (parse_newest_entry (some (Json.arr xs))).1 = some (pickMax d ds) ∧
      pickMax d ds ∈ withIds xs ∧
      (∀ e ∈ withIds xs, idKey e ≤ idKey (pickMax d ds)) ∧
      (parse_newest_entry (some (Json.arr xs))).2 = some (toString (idKey (pickMax d ds)))) ∧
    (∀ xs, xs ≠ [] → withIds xs = [] →
      (parse_newest_entry (some (Json.arr xs))).1 =
        (match xs.getLast? with
         | some (Json.obj kvs) => some (Json.obj kvs)
         | _ => none)) := by
  refine ⟨?_, ?_, ?_⟩
  · intro m h
    rcases m with _ | j
    · rfl
    rcases j with _ | b | n | s | xs | kvs
    · rfl
    · rfl
    · rfl
    · rfl
    · rcases xs with _ | ⟨x, rest⟩
      · rfl
      · simp [manifestDegenerate] at h
    · rfl
  · intro xs d ds h
    rcases xs with _ | ⟨x, rest⟩
    · simp [withIds] at h
    · refine ⟨?_, ?_, ?_, ?_⟩
      · simp only [parse_newest_entry, h]
      · rw [h]; exact pickMax_mem ds d
      · rw [h]; exact pickMax_le ds d
      · simp only [parse_newest_entry, h]
  · intro xs hne h
    rcases xs with _ | ⟨x, rest⟩
    · exact absurd rfl hne
    · simp only [parse_newest_entry, h]
      rcases hl : (x :: rest).getLast? with _ | j
      · simp at hl
      · rcases j with _ | b | n | s | ys | kvs <;> rfl

/-- The spec's tie-break example manifest: entries with identities 7 and 12. -/
def manifest10 : List Json := [Json.obj [("id", Json.int 7)], Json.obj [("id", Json.int 12)]]

/-- C10 witness: on the `{id: 7}` / `{id: 12}` manifest the selected newest
entry's id string is `12`. -/
theorem c10_newest_selection_witness :
    (parse_newest_entry (some (Json.arr manifest10))).2 = some "12" := by
  rw [(c10_newest_selection.2.1 manifest10 (Json.obj [("id", Json.int 7)])
      [Json.obj [("id", Json.int 12)]] rfl).2.2.2]
  decide

/-- C8: whatever the internal state, the warning-count payload the publish
operation sends is `max 0` of the count (never negative), and every field
given as unset (`None`) produces no publish to that field's topic. -/
theorem c8_publish_clamps (client : Bool) (base : String) (st : Option Bool)
    (lid : Option String) (w : Option Int) :
    (∀ n, w = some n → client = true →
      ((base ++ "/last_warning_count/state", toString (max 0 n)) ∈
          mqtt_publish client base st lid w ∧ 0 ≤ max 0 n)) ∧
    (w = none → ∀ p ∈ mqtt_publish client base st lid w,
      p.1 ≠ base ++ "/last_warning_count/state") ∧
    (st = none → ∀ p ∈ mqtt_publish client base st lid w,
      p.1 ≠ base ++ "/alert/state") ∧
    (lid = none → ∀ p ∈ mqtt_publish client base st lid w,
      p.1 ≠ base ++ "/last_report_id/state") := by
  have hne : ∀ a b : String, a.length ≠ b.length → base ++ a ≠ base ++ b := by
    intro a b hab hcontra
    apply hab
    have := congrArg String.length hcontra
    simpa [String.length_append] using this
  refine ⟨?_, ?_, ?_, ?_⟩
  · intro n hn hc
    subst hn; subst hc
    refine ⟨?_, le_max_left 0 n⟩
    simp [mqtt_publish, List.mem_append]
  · intro hw p hp
    subst hw
    rcases client with _ | _
    · simp [mqtt_publish] at hp
    · rcases st with _ | b <;> rcases lid with _ | s <;>
        simp [mqtt_publish] at hp <;>
        (rcases hp with rfl | rfl <;> exact hne _ _ (by decide))
  · intro hs p hp
    subst hs
    rcases client with _ | _
    · simp [mqtt_publish] at hp
    · rcases lid with _ | s <;> rcases w with _ | n <;>
        simp [mqtt_publish] at hp <;>
        (rcases hp with rfl | rfl <;> exact hne _ _ (by decide))
  · intro hl p hp
    subst hl
    rcases client with _ | _
    · simp [mqtt_publish] at hp
    · rcases st with _ | b <;> rcases w with _ | n <;>
        simp [mqtt_publish] at hp <;>
        (rcases hp with rfl | rfl <;> exact hne _ _ (by decide))

/-- C8 witness: a negative internal count of -3 is published as `0`, on the
warning-count topic. -/
theorem c8_publish_clamps_witness :
    ("b" ++ "/last_warning_count/state", toString (max 0 (-3 : Int))) ∈
      mqtt_publish true "b" none none (some (-3)) :=
  ((c8_publish_clamps true "b" none none (some (-3))).1 (-3) rfl rfl).1

/-- The forced-alert step touches only `last_alert` and the scheduling fields,
and its event carries the current `last_id`/`last_warn`. -/
lemma forcedStep_frame (cfg : Cfg) (now : Int) (s : Obs) :
    (forcedStep cfg now s).2.last_id = s.last_id ∧
    (forcedStep cfg now s).2.last_warn = s.last_warn ∧
    ∀ e ∈ (forcedStep cfg now s).1, e.rid = s.last_id ∧ e.warn = some s.last_warn := by
  unfold forcedStep
  split <;> simp

/-- The manual-trigger drain touches only `last_alert` and the auto-clear
deadline, and its events carry the current `last_id`/`last_warn`. -/
lemma manualStep_frame (cfg : Cfg) (now : Int) :
    ∀ (n : Nat) (s : Obs),
      (manualStep cfg now n s).2.last_id = s.last_id ∧
      (manualStep cfg now n s).2.last_warn = s.last_warn ∧
      ∀ e ∈ (manualStep cfg now n s).1, e.rid = s.last_id ∧ e.warn = some s.last_warn := by
  intro n
  induction n with
  | zero => intro s; simp [manualStep]
  | succ k ih =>
    intro s
    simp only [manualStep]
    have h := ih { s with last_alert := true, clear_deadline := (if cfg.autoclear_secs > 0 then now + cfg.autoclear_secs else s.clear_deadline) }
    refine ⟨h.1, h.2.1, ?_⟩
    intro e he
    rcases List.mem_cons.mp he with heq | he'
    · subst heq; exact ⟨rfl, rfl⟩
    · exact h.2.2 e he'

/-- The auto-clear step touches only `last_alert` and the deadline, and its
event carries the current `last_id`/`last_warn`. -/
lemma clearStep_frame (now : Int) (s : Obs) :
    (clearStep now s).2.last_id = s.last_id ∧
    (clearStep now s).2.last_warn = s.last_warn ∧
    ∀ e ∈ (clearStep now s).1, e.rid = s.last_id ∧ e.warn = some s.last_warn := by
  unfold clearStep
  split <;> simp

/-- The composed forced/manual/auto-clear portion preserves `last_id` and
`last_warn`, and every event it emits carries the state's entry values. -/
lemma timerSteps_frame (cfg : Cfg) (now : Int) (n : Nat) (s : Obs) :
    (timerSteps cfg now n s).2.last_id = s.last_id ∧
    (timerSteps cfg now n s).2.last_warn = s.last_warn ∧
    ∀ e ∈ (timerSteps cfg now n s).1, e.rid = s.last_id ∧ e.warn = some s.last_warn := by
  obtain ⟨f1, f2, f3⟩ := forcedStep_frame cfg now s
  obtain ⟨m1, m2, m3⟩ := manualStep_frame cfg now n (forcedStep cfg now s).2
  obtain ⟨c1, c2, c3⟩ :=
    clearStep_frame now (manualStep cfg now n (forcedStep cfg now s).2).2
  unfold timerSteps
  refine ⟨by rw [c1, m1, f1], by rw [c2, m2, f2], ?_⟩
  intro e he
  rcases List.mem_append.mp he with he' | he'
  · rcases List.mem_append.mp he' with he'' | he''
    · exact f3 e he''
    · obtain ⟨h1, h2⟩ := m3 e he''
      exact ⟨by rw [h1, f1], by rw [h2, f2]⟩
  · obtain ⟨h1, h2⟩ := c3 e he'
    exact ⟨by rw [h1, m1, f1], by rw [h2, m2, f2]⟩

/-- C9: the forced-alert, manual-trigger and auto-clear steps of a cycle leave
`last_id` and `last_warn` unchanged (they modify only `last_alert` and the
scheduling fields), and every event they emit carries the pre-existing
`last_id` and `last_warn`. -/
theorem c9_timer_frame (cfg : Cfg) (now : Int) (n : Nat) (s : Obs) :
    (timerSteps cfg now n s).2.last_id = s.last_id ∧
    (timerSteps cfg now n s).2.last_warn = s.last_warn ∧
    ∀ e ∈ (timerSteps cfg now n s).1, e.rid = s.last_id ∧ e.warn = some s.last_warn :=
  timerSteps_frame cfg now n s

/-- A concrete state with a set report id and positive count. -/
def obsW : Obs := ⟨7, some "z", false, 0, 0⟩

/-- C9 witness: with a forced alert firing and one manual trigger pending, the
state's id/count survive and the forced event carries them. -/
theorem c9_timer_frame_witness :
    (timerSteps ⟨false, 5, 2⟩ 10 1 obsW).2.last_id = obsW.last_id ∧
    (⟨some true, some "z", some 7⟩ : NotifyEvent).rid = obsW.last_id :=
  ⟨(c9_timer_frame ⟨false, 5, 2⟩ 10 1 obsW).1,
    ((c9_timer_frame ⟨false, 5, 2⟩ 10 1 obsW).2.2 ⟨some true, some "z", some 7⟩
      (by decide)).1⟩

/-- C2 counterexample: a cycle that observes id "5" followed by a fully
degraded cycle; the degraded cycle resets `last_report_id` back to unset
(the change gate fires because `None != "5"` and assigns `rid = None`). -/
theorem c2_counterexample :
    ((cycle ⟨false, 0, 0⟩
        ⟨some (Json.obj [("warningCount", .int 2), ("lastReportId", .str "5")]),
          none, fun _ => none⟩ 0 0 (initObs ⟨false, 0, 0⟩ 0)).2.1).last_id = some "5" ∧
    ((cycle ⟨false, 0, 0⟩ fDown 3 0
        (cycle ⟨false, 0, 0⟩
          ⟨some (Json.obj [("warningCount", .int 2), ("lastReportId", .str "5")]),
            none, fun _ => none⟩ 0 0 (initObs ⟨false, 0, 0⟩ 0)).2.1).2.1).last_id = none := by
  constructor
  · decide
  · decide

/-- C2 amended: far from being preserved, a set `last_report_id` is RESET to
unset by any poll cycle whose extraction resolves no report id (all tiers
fail): the change gate fires on the id difference and stores the unset id. -/
theorem c2_degraded_resets (cfg : Cfg) (f : Fetches) (now : Int) (n : Nat) (s : Obs)
    (h1 : (extract f).2 = none) (h2 : s.last_id ≠ none) :
    ((cycle cfg f now n s).2.1).last_id = none := by
  have hfire : (extract f).2 ≠ s.last_id ∨ (extract f).1 ≠ some s.last_warn ∨
      (if cfg.alert_on_new ∧ ((extract f).2).isSome ∧ (extract f).2 ≠ s.last_id then true
       else decide (((extract f).1).getD 0 > 0)) ≠ s.last_alert := by
    left
    rw [h1]
    exact fun hc => h2 hc.symm
  show (timerSteps cfg now n (gateStep cfg (extract f).1 (extract f).2 s).2).2.last_id = none
  rw [(timerSteps_frame cfg now n _).1]
  unfold gateStep
  rw [if_pos hfire]
  exact h1

/-- C2 amended witness: the degraded cycle from a state holding id "5" ends
with the id unset. -/
theorem c2_degraded_resets_witness :
    ((cycle ⟨false, 0, 0⟩ fDown 3 0 ⟨2, some "5", true, 0, 0⟩).2.1).last_id = none :=
  c2_degraded_resets ⟨false, 0, 0⟩ fDown 3 0 ⟨2, some "5", true, 0, 0⟩
    (by decide) (by decide)

/-- The forced-alert test configuration of claim C4: `forced_interval=5`,
`autoclear=2`, alert-on-new off. -/
def cfg4 : Cfg := ⟨false, 5, 2⟩

/-- The C4 scenario: default 3-second polls from process start at 0, degraded
upstream, no manual triggers. -/
def trace4 : List (Int × List NotifyEvent) :=
  runLoop cfg4 fDown [0, 3, 6, 9, 12] (initObs cfg4 0)

/-- C4 counterexample: in the forced-alert scenario the cycle after the auto-
clear deadline emits TWO `alert=false` events (one from the change gate, whose
data-derived alert has reverted to false, and one from the auto-clear), not
exactly one. -/
theorem c4_counterexample :
    (((trace4.foldr (fun p acc => p.2 ++ acc) []).filter
        (fun e => decide (e.alert = some false))).length) = 2 := by
  decide

/-- C4 amended: with forced_interval=5, autoclear=2 and 3-second polls over a
degraded upstream, the full event schedule is: exactly one forced alert at the
first poll at or after t=5 (t=6); at the next poll (t=9, which is past the
t=8 auto-clear deadline) two `alert=false` events — the change gate's revert
and the auto-clear — and nothing more until the next forced interval elapses
at t=11, firing at the t=12 poll. -/
theorem c4_forced_schedule :
    trace4 = [(0, []), (3, []),
      (6, [⟨some true, none, some 0⟩]),
      (9, [⟨some false, none, some 0⟩, ⟨some false, none, some 0⟩]),
      (12, [⟨some true, none, some 0⟩])] := by
  decide

/-- The default-configuration record (alert-on-new off, no synthetic timers). -/
def cfg0 : Cfg := ⟨false, 0, 0⟩

/-- C5 (code bug): the `warn` variable is always defaulted to an integer
before the status line is built (line 290), so the line's heartbeat field is
always `ok`: a fully degraded cycle logs `hb=ok ... warnings=0`, and the
documented `hb=down` branch of line 324 is unreachable. -/
theorem c5_hb_never_down :
    (∀ f : Fetches, ((extract f).1).isSome = true) ∧
    (cycle cfg0 fDown 0 0 (initObs cfg0 0)).2.2 =
      "hb=ok last_id=None warnings=0 alert=OFF" := by
  constructor
  · intro f
    unfold extract
    rcases h1 : (get_stats f.stats).1 with _ | n <;>
      rcases h2 : (get_stats f.stats).2 with _ | r <;>
      simp [h1, h2]
  · decide

/-- Tier-2 warning counts are clamped with `max(0, ...)`. -/
lemma firstCwGo_nonneg : ∀ (ks : List String) (d : Json) (n : Int),
    firstCwGo ks d = some n → 0 ≤ n := by
  intro ks
  induction ks with
  | nil => intro d n h; simp [firstCwGo] at h
  | cons k ks ih =>
    intro d n h
    simp only [firstCwGo] at h
    rcases hm : pyToInt (pyGet d k) with _ | m
    · rw [hm] at h; exact ih d n h
    · rw [hm] at h
      simp only [Option.some.injEq] at h
      subst h
      exact le_max_left 0 m

/-- A resolved manifest-entry warning count is non-negative. -/
lemma cw_entry_nonneg (e : Option Json) (n : Int)
    (h : count_warnings_from_manifest_entry e = some n) : 0 ≤ n := by
  rcases e with _ | j
  · simp [count_warnings_from_manifest_entry] at h
  · rcases j with _ | b | m | s | xs | kvs <;>
      simp [count_warnings_from_manifest_entry] at h
    exact firstCwGo_nonneg cwKeys (Json.obj kvs) n h

/-- Tier-3 dotted-path counts are clamped with `max(0, ...)`. -/
lemma firstPathGo_nonneg : ∀ (ks : List String) (r : Json) (n : Int),
    firstPathGo ks r = some n → 0 ≤ n := by
  intro ks
  induction ks with
  | nil => intro r n h; simp [firstPathGo] at h
  | cons k ks ih =>
    intro r n h
    simp only [firstPathGo] at h
    rcases hm : (traverse r (splitDot k)).bind pyToIntJ with _ | m
    · rw [hm] at h; exact ih r n h
    · rw [hm] at h
      simp only [Option.some.injEq] at h
      subst h
      exact le_max_left 0 m

/-- A resolved numeric report field is non-negative. -/
lemma numericField_nonneg (r : Json) (n : Int)
    (h : numericField r = some n) : 0 ≤ n := by
  rcases r with _ | b | m | s | xs | kvs <;> simp [numericField] at h
  exact firstPathGo_nonneg pathKeys (Json.obj kvs) n h

/-- The report-tier count is always non-negative: dotted paths are clamped and
the two fallbacks count occurrences. -/
lemma count_report_nonneg (r : Option Json) : 0 ≤ count_warnings_from_report r := by
  rcases r with _ | j
  · simp [count_warnings_from_report]
  · rcases hn : numericField j with _ | v
    · simp only [count_warnings_from_report, hn]
      split <;> exact Int.natCast_nonneg _
    · simp only [count_warnings_from_report, hn]
      exact numericField_nonneg j v hn

/-- The fallback-tier warning value, defaulted with `or 0`, is non-negative:
manifest counts and report counts are clamped, and the default is 0. -/
lemma tier23Warn_nonneg (f : Fetches) (rid : Option String) :
    0 ≤ (tier23Warn f rid).getD 0 := by
  unfold tier23Warn
  rcases hw : count_warnings_from_manifest_entry (parse_newest_entry f.manifest).1
    with _ | m
  · rcases rid with _ | r
    · simp [hw]
    · simp only [hw]
      split
      · simp [count_report_nonneg]
      · simp
  · simp only [hw]
    simpa using cw_entry_nonneg _ m hw

/-- The warning count resolved by a cycle's extraction is either the tier-1
stats coercion (unclamped) or a non-negative tier-2/3/default value. -/
lemma extract_warn_cases (f : Fetches) :
    (extract f).1 = (get_stats f.stats).1 ∨
    ∃ v, (extract f).1 = some v ∧ 0 ≤ v := by
  rcases h1 : (get_stats f.stats).1 with _ | n
  · right
    simp only [extract, h1, Option.isNone_none, Bool.true_or, if_true]
    exact ⟨_, rfl, tier23Warn_nonneg f _⟩
  · left
    rcases h2 : (get_stats f.stats).2 with _ | r <;>
      simp [extract, h1, h2]

/-- After the change gate, `last_warn` is either the new count or untouched. -/
lemma gateStep_last_warn (cfg : Cfg) (warn : Option Int) (rid : Option String) (s : Obs) :
    (gateStep cfg warn rid s).2.last_warn = warn.getD 0 ∨
    (gateStep cfg warn rid s).2.last_warn = s.last_warn := by
  simp only [gateStep]
  split <;> split <;> first | (left; rfl) | (right; rfl)

/-- C3 amended: tiers 2/3 and the default are clamped non-negative, but tier 1
is NOT, so `last_warning_count` stays non-negative across a cycle exactly when
any tier-1-coerced stats count is non-negative (the published payload is
separately clamped by the Notifier — see the publish-clamp theorem). -/
theorem c3_warn_nonneg_amended (cfg : Cfg) (f : Fetches) (now : Int) (n : Nat) (s : Obs)
    (h1 : 0 ≤ s.last_warn)
    (h2 : ∀ v, (get_stats f.stats).1 = some v → 0 ≤ v) :
    0 ≤ ((cycle cfg f now n s).2.1).last_warn := by
  show 0 ≤ (timerSteps cfg now n (gateStep cfg (extract f).1 (extract f).2 s).2).2.last_warn
  rw [(timerSteps_frame cfg now n _).2.1]
  rcases gateStep_last_warn cfg (extract f).1 (extract f).2 s with h | h
  · rw [h]
    rcases extract_warn_cases f with hc | ⟨v, hv, hvp⟩
    · rw [hc]
      rcases h3 : (get_stats f.stats).1 with _ | v
      · simp
      · simpa using h2 v h3
    · rw [hv]; simpa using hvp
  · rw [h]; exact h1

/-- C3 amended witness: the fully degraded cycle from the initial state keeps
the count at 0. -/
theorem c3_warn_nonneg_amended_witness :
    0 ≤ ((cycle cfg0 fDown 0 0 (initObs cfg0 0)).2.1).last_warn :=
  c3_warn_nonneg_amended cfg0 fDown 0 0 (initObs cfg0 0) (by decide)
    (fun v hv => by simp [get_stats, fDown] at hv)

/-- A stats document carrying a negative integer warning count. -/
def fNeg : Fetches :=
  ⟨some (Json.obj [("warningCount", .int (-5)), ("lastReportId", .str "1")]),
    none, fun _ => none⟩

/-- C3 counterexample: tier-1 coerces `warningCount=-5` without clamping, so
after the cycle `last_warning_count = -5 < 0`, and the event handed to the
Notifier carries the negative count. -/
theorem c3_counterexample :
    ((cycle cfg0 fNeg 0 0 (initObs cfg0 0)).2.1).last_warn = -5 ∧
    (⟨some false, some "1", some (-5)⟩ : NotifyEvent) ∈
      (cycle cfg0 fNeg 0 0 (initObs cfg0 0)).1 := by
  constructor
  · decide
  · decide

/-- The change gate never touches the auto-clear deadline. -/
lemma gateStep_clear (cfg : Cfg) (warn : Option Int) (rid : Option String) (s : Obs) :
    (gateStep cfg warn rid s).2.clear_deadline = s.clear_deadline := by
  simp only [gateStep]
  split <;> split <;> rfl

/-- With the forced interval disabled, no pending triggers and no armed
auto-clear deadline, the timer steps are inert. -/
lemma timerSteps_inactive (cfg : Cfg) (now : Int) (s : Obs)
    (hf : cfg.force_secs ≤ 0) (hc : s.clear_deadline = 0) :
    timerSteps cfg now 0 s = ([], s) := by
  have hf' : ¬(cfg.force_secs > 0 ∧ now ≥ s.next_forced) :=
    fun h => absurd h.1 (not_lt.mpr hf)
  have hc' : ¬(s.clear_deadline ≠ 0 ∧ now ≥ s.clear_deadline) := fun h => h.1 hc
  simp [timerSteps, forcedStep, manualStep, clearStep, hf', hc']

/-- With alert-on-new disabled, repeating the change gate on an identical
known-count canonical state is inert: the first application synchronises all
three compared fields, so the second finds no difference. -/
lemma gateStep_twice (cfg : Cfg) (hmode : cfg.alert_on_new = false) (w : Int)
    (rid : Option String) (s : Obs) :
    gateStep cfg (some w) rid (gateStep cfg (some w) rid s).2 =
      ([], (gateStep cfg (some w) rid s).2) := by
  simp only [gateStep, hmode, Bool.false_eq_true, false_and, if_false]
  by_cases h : rid ≠ s.last_id ∨ (some w : Option Int) ≠ some s.last_warn ∨
      decide ((some w : Option Int).getD 0 > 0) ≠ s.last_alert
  · rw [if_pos h, if_neg (by simp)]
  · rw [if_neg h, if_neg h]

/-- C6 counterexample: with alert-on-new enabled, a first reconcile of
`(count 0, id "a")` forces the alert on; the second reconcile of the identical
canonical state recomputes `alert=false`, so the gate fires again and one
event is emitted, not zero. -/
theorem c6_counterexample :
    ((reconcile ⟨true, 0, 0⟩ (some 0) (some "a") 0 0
        ((reconcile ⟨true, 0, 0⟩ (some 0) (some "a") 0 0
          (initObs ⟨true, 0, 0⟩ 0)).2)).1).length = 1 := by
  decide

/-- C6 amended: with alert-on-new DISABLED, a known (integer) warning count,
no timers armed and no pending manual triggers, reconciling an identical
canonical state a second time emits zero events. -/
theorem c6_idempotent_amended (cfg : Cfg) (w : Int) (rid : Option String)
    (now now2 : Int) (s : Obs)
    (hmode : cfg.alert_on_new = false) (hforce : cfg.force_secs ≤ 0)
    (hclear : s.clear_deadline = 0) :
    (reconcile cfg (some w) rid now2 0 ((reconcile cfg (some w) rid now 0 s).2)).1 = [] := by
  have hg1c : (gateStep cfg (some w) rid s).2.clear_deadline = 0 := by
    rw [gateStep_clear]; exact hclear
  have e1 : (reconcile cfg (some w) rid now 0 s).2 = (gateStep cfg (some w) rid s).2 := by
    simp only [reconcile]
    rw [timerSteps_inactive cfg now _ hforce hg1c]
  rw [e1]
  simp only [reconcile]
  rw [gateStep_twice cfg hmode w rid s]
  simp [timerSteps_inactive cfg now2 ((gateStep cfg (some w) rid s).2) hforce hg1c]

/-- C6 amended witness: the second reconcile of `(count 1, id "a")` in the
default mode-off configuration emits nothing. -/
theorem c6_idempotent_amended_witness :
    (reconcile cfg0 (some 1) (some "a") 4 0
      ((reconcile cfg0 (some 1) (some "a") 3 0 (initObs cfg0 0)).2)).1 = [] :=
  c6_idempotent_amended cfg0 1 (some "a") 3 4 (initObs cfg0 0) rfl (by decide) rfl

end Rayhunter
